import Mathlib

/- Verification of the state-synchronization and update-coalescing engine of the
   NatureRemoAircon homebridge accessory (index.js): the debounced update batching
   of `_updateTargetAppliance`, the appliance resolution of `_refreshTargetAppliance`,
   the sensor refresh of `_refreshTemperature`, and the pure characteristic
   projections (heating/cooling state, temperature bounds). -/

/-- Aircon settings object as returned by the remote API (`record.settings`):
    the fields the program reads (`temp`, `mode`, `vol`, `dir`, `button`). -/
structure AirconSettings where
  temp : String
  mode : String
  vol : String
  dir : String
  button : String
deriving DecidableEq

/-- Per-mode capability entry (`record.aircon.range.modes[mode]`), carrying the
    list of temperature option strings. -/
structure ModeCaps where
  temp : List String
deriving DecidableEq

/-- `record.aircon.range`: capability map keyed by mode name, in JS object
    insertion order. -/
structure AirconRange where
  modes : List (String × ModeCaps)
deriving DecidableEq

/-- `record.aircon`: non-null means the appliance declares HVAC capability. -/
structure AirconCaps where
  tempUnit : String
  range : AirconRange
deriving DecidableEq

/-- An appliance record from `GET /appliances`, restricted to the fields the
    program uses: `id`, `device.id` (modelled as the id string), `aircon`
    (null for non-HVAC appliances) and `settings`. -/
structure ApplianceRecord where
  id : String
  device : String
  aircon : Option AirconCaps
  settings : AirconSettings
deriving DecidableEq

/-- A form-parameter map (a JS object with string keys and values), kept in key
    insertion order. -/
abbrev Batch := List (String × String)

/-- The keys of a parameter map, in order. -/
def batchKeys (b : Batch) : List String := b.map Prod.fst

/-- JS `Object.assign({}, base, ext)`: keys of `base` keep their position with
    values overridden by `ext` where present; keys present only in `ext` are
    appended in their order. -/
def objAssign (base ext : Batch) : Batch :=
  base.map (fun kv => match ext.lookup kv.1 with
    | some v => (kv.1, v)
    | none => kv)
  ++ ext.filter (fun kv => (base.lookup kv.1).isNone)

/-- First-some choice on options (JS-style fallback). -/
def optOr {α : Type} : Option α → Option α → Option α
  | some v, _ => some v
  | none, o => o

theorem lookup_append {α β : Type} [BEq α] (l1 l2 : List (α × β)) (k : α) :
    (l1 ++ l2).lookup k = optOr (l1.lookup k) (l2.lookup k) := by
  induction l1 with
  | nil => simp [optOr, List.lookup]
  | cons kv l1 ih =>
    cases h : k == kv.1 <;> simp [List.lookup, h, ih, optOr]

theorem lookup_override (base ext : Batch) (k : String) :
    (base.map (fun kv => match ext.lookup kv.1 with
      | some v => (kv.1, v)
      | none => kv)).lookup k
    = (base.lookup k).map (fun v => match ext.lookup k with
        | some w => w
        | none => v) := by
  induction base with
  | nil => simp [List.lookup]
  | cons kv bs ih =>
    cases h : k == kv.1 with
    | true =>
      have hk : k = kv.1 := eq_of_beq h
      cases he : ext.lookup kv.1 <;> simp [List.lookup, h, hk, he]
    | false =>
      cases he : ext.lookup kv.1 <;> simp [List.lookup, h, he, ih]

theorem lookup_filter_not_in_base (base ext : Batch) (k : String) :
    (ext.filter (fun kv => (base.lookup kv.1).isNone)).lookup k
    = if (base.lookup k).isNone then ext.lookup k else none := by
  induction ext with
  | nil => simp [List.lookup]
  | cons kv es ih =>
    obtain ⟨k0, v0⟩ := kv
    cases hb : (base.lookup k0).isNone with
    | true =>
      rw [List.filter_cons_of_pos (by simpa using hb)]
      cases h : k == k0 with
      | true =>
        have hk : k = k0 := eq_of_beq h
        rw [hk] at ih ⊢
        simp [List.lookup, hb]
      | false =>
        simp only [List.lookup, h, ih]
    | false =>
      rw [List.filter_cons_of_neg (by simpa using hb)]
      cases h : k == k0 with
      | true =>
        have hk : k = k0 := eq_of_beq h
        rw [hk] at ih ⊢
        rw [ih, hb]
        simp
      | false =>
        rw [ih]
        simp only [List.lookup, h]

/-- Lookup in an `Object.assign` merge: the extension wins, the base is the
    fallback (last-writer-wins, right bias). -/
theorem lookup_objAssign (base ext : Batch) (k : String) :
    (objAssign base ext).lookup k = optOr (ext.lookup k) (base.lookup k) := by
  rw [objAssign, lookup_append, lookup_override, lookup_filter_not_in_base]
  cases hb : base.lookup k <;> cases he : ext.lookup k <;> simp [optOr]

theorem lookup_isSome_iff (l : Batch) (k : String) :
    (l.lookup k).isSome = true ↔ k ∈ batchKeys l := by
  induction l with
  | nil => simp [List.lookup, batchKeys]
  | cons kv es ih =>
    obtain ⟨k0, v0⟩ := kv
    cases h : k == k0 with
    | true =>
      have hk : k = k0 := eq_of_beq h
      simp [List.lookup, h, batchKeys, hk]
    | false =>
      have hk : ¬ (k = k0) := by
        intro he
        rw [he] at h
        simp at h
      simp only [List.lookup, h, batchKeys, List.map_cons, List.mem_cons]
      rw [show (List.map Prod.fst es) = batchKeys es from rfl, ← ih]
      simp [hk]

theorem mem_keys_objAssign (base ext : Batch) (k : String) :
    k ∈ batchKeys (objAssign base ext) ↔ k ∈ batchKeys base ∨ k ∈ batchKeys ext := by
  rw [← lookup_isSome_iff, ← lookup_isSome_iff, ← lookup_isSome_iff, lookup_objAssign]
  cases hb : base.lookup k <;> cases he : ext.lookup k <;> simp [optOr]

theorem objAssign_nil (p : Batch) : objAssign [] p = p := by
  rw [objAssign]
  simp [List.lookup]

theorem mem_keys_foldl (ps : List (Nat × Batch)) (b : Batch) (k : String) :
    k ∈ batchKeys (ps.foldl (fun acc cp => objAssign acc cp.2) b)
      ↔ k ∈ batchKeys b ∨ ∃ p ∈ ps, k ∈ batchKeys p.2 := by
  induction ps generalizing b with
  | nil => simp
  | cons cp ps ih =>
    simp only [List.foldl_cons, ih, mem_keys_objAssign]
    constructor
    · rintro (⟨h | h⟩ | ⟨p, hp, h⟩)
      · exact Or.inl h
      · exact Or.inr ⟨cp, by simp, h⟩
      · exact Or.inr ⟨p, by simp [hp], h⟩
    · rintro (h | ⟨p, hp, h⟩)
      · exact Or.inl (Or.inl h)
      · rcases List.mem_cons.mp hp with rfl | hp
        · exact Or.inl (Or.inr h)
        · exact Or.inr ⟨p, hp, h⟩

/-- A parsed JSON body of the settings write: whether it carries the error
    `code` field (`'code' in json`), and the settings payload it denotes. -/
structure JsonVal where
  hasCode : Bool
  settings : AirconSettings
deriving DecidableEq

/-- The options object built at dispatch (index.js lines 48-55):
    `Object.assign({button: this.record.settings.button}, DEFAULT_REQUEST_OPTIONS,
    {uri: ..., headers: ..., method: 'POST', form: this.requestParams})`.
    The `button` default lands as a top-level option key of the request options,
    not inside `form`; the form payload is exactly `requestParams`. -/
structure RequestOptions where
  button : Option String
  baseUrl : String
  method : String
  uri : String
  form : Batch
deriving DecidableEq

/-- Faithful translation of the `Object.assign` chain of index.js lines 48-55. -/
def buildUpdateOptions (rec : ApplianceRecord) (requestParams : Batch) : RequestOptions :=
  { button := some rec.settings.button
    baseUrl := "https://api.nature.global/1/"
    method := "POST"
    uri := "/appliances/" ++ rec.id ++ "/aircon_settings"
    form := requestParams }

/-- State of one accessory instance relevant to `_updateTargetAppliance`:
    the cached record, the pending merged parameters (`this.requestParams`,
    `[]` models the deleted/undefined field), the open debounce promise
    (`this.requestPromise`, identified by a batch id), the then/catch handlers
    attached to each open promise (caller id, batch id) in attachment order,
    the dispatched writes whose responses have not yet arrived, and a counter
    for fresh batch ids. -/
structure CoalescerState where
  record : ApplianceRecord
  requestParams : Batch
  requestPromise : Option Nat
  attached : List (Nat × Nat)
  inFlight : List (Nat × RequestOptions)
  nextId : Nat
deriving DecidableEq

/-- Observable effects of one event: an outbound write, a caller callback
    (success or failure with reason), or a Change Notifier trigger
    (`_notifyLatestValues`). -/
inductive CoObs
  | write (opts : RequestOptions)
  | resolved (caller : Nat)
  | rejected (caller : Nat) (reason : String)
  | notify
deriving DecidableEq

/-- Events driving the coalescer: a `_updateTargetAppliance(params, callback)`
    call, the 100ms debounce timer firing, and the arrival of the network
    response for a dispatched batch (`error` is the transport error flag, the
    outer Option is body null, the inner Option is JSON.parse failure). -/
inductive CoEvent
  | requestChange (caller : Nat) (params : Batch)
  | timerFire
  | response (batchId : Nat) (error : Bool) (body : Option (Option JsonVal))
deriving DecidableEq

/-- Response validation of index.js lines 56-75: transport error or null body
    rejects with "failed to update"; an unparseable body or a body whose JSON
    carries a `code` field rejects with "server returned error"; otherwise the
    parsed JSON is the new settings. -/
def processUpdateResponse (error : Bool) (body : Option (Option JsonVal)) :
    Except String JsonVal :=
  if error then Except.error "failed to update"
  else match body with
  | none => Except.error "failed to update"
  | some none => Except.error "server returned error"
  | some (some j) =>
      if j.hasCode then Except.error "server returned error" else Except.ok j

/-- One step of the coalescer (index.js lines 40-90).
    `requestChange`: merge the params into `this.requestParams`; if no promise
    is open, open one (scheduling the timer); attach the caller's then/catch.
    `timerFire`: build the options from the current `requestParams`, issue the
    write, then delete `requestPromise` and `requestParams` (lines 77-78 run
    when the timer fires, not when the response arrives).
    `response`: settle the promise of the dispatched batch: on success every
    attached handler sets `record.settings` to the payload, notifies, and calls
    back; on failure every attached handler calls back with the same reason. -/
def coalescerStep (st : CoalescerState) : CoEvent → CoalescerState × List CoObs
  | CoEvent.requestChange c p =>
    match st.requestPromise with
    | some id =>
        ({ st with requestParams := objAssign st.requestParams p,
                   attached := st.attached ++ [(c, id)] }, [])
    | none =>
        ({ st with requestParams := objAssign st.requestParams p,
                   requestPromise := some st.nextId,
                   attached := st.attached ++ [(c, st.nextId)],
                   nextId := st.nextId + 1 }, [])
  | CoEvent.timerFire =>
    match st.requestPromise with
    | none => (st, [])
    | some id =>
        ({ st with requestParams := [],
                   requestPromise := none,
                   inFlight := st.inFlight
                     ++ [(id, buildUpdateOptions st.record st.requestParams)] },
         [CoObs.write (buildUpdateOptions st.record st.requestParams)])
  | CoEvent.response id error body =>
    match st.inFlight.lookup id with
    | none => (st, [])
    | some _ =>
      match processUpdateResponse error body with
      | Except.ok j =>
          ({ st with record := { st.record with settings := j.settings },
                     inFlight := st.inFlight.filter (fun w => !(w.1 == id)),
                     attached := st.attached.filter (fun a => !(a.2 == id)) },
           ((st.attached.filter (fun a => a.2 == id)).map Prod.fst).flatMap
             (fun c => [CoObs.notify, CoObs.resolved c]))
      | Except.error r =>
          ({ st with inFlight := st.inFlight.filter (fun w => !(w.1 == id)),
                     attached := st.attached.filter (fun a => !(a.2 == id)) },
           ((st.attached.filter (fun a => a.2 == id)).map Prod.fst).map
             (fun c => CoObs.rejected c r))

/-- Run a sequence of events, accumulating the observations. -/
def runTrace (st : CoalescerState) : List CoEvent → CoalescerState × List CoObs
  | [] => (st, [])
  | e :: es =>
      ((runTrace (coalescerStep st e).1 es).1,
       (coalescerStep st e).2 ++ (runTrace (coalescerStep st e).1 es).2)

/-- The outbound writes among a list of observations. -/
def writesOf (l : List CoObs) : List RequestOptions :=
  l.filterMap (fun o => match o with
    | CoObs.write w => some w
    | _ => none)

/-- The `requestChange` events of a list of (caller, params) set-operations. -/
def callEvents (ps : List (Nat × Batch)) : List CoEvent :=
  ps.map (fun cp => CoEvent.requestChange cp.1 cp.2)

theorem writesOf_append (l1 l2 : List CoObs) :
    writesOf (l1 ++ l2) = writesOf l1 ++ writesOf l2 := by
  simp [writesOf]

theorem runTrace_append (st : CoalescerState) (l1 l2 : List CoEvent) :
    runTrace st (l1 ++ l2)
      = ((runTrace (runTrace st l1).1 l2).1,
         (runTrace st l1).2 ++ (runTrace (runTrace st l1).1 l2).2) := by
  induction l1 generalizing st with
  | nil => simp [runTrace]
  | cons e es ih => simp [runTrace, ih]

/-- Behaviour of a run consisting only of `requestChange` events: the pending
    parameters are the left fold of `Object.assign` over the calls in arrival
    order, no write is issued, the cached record and the in-flight writes are
    untouched, and a promise is open afterwards iff one was open before or at
    least one call arrived. -/
theorem runTrace_calls (ps : List (Nat × Batch)) (st : CoalescerState) :
    (runTrace st (callEvents ps)).1.requestParams
        = ps.foldl (fun acc cp => objAssign acc cp.2) st.requestParams
    ∧ (runTrace st (callEvents ps)).1.record = st.record
    ∧ (runTrace st (callEvents ps)).1.inFlight = st.inFlight
    ∧ writesOf (runTrace st (callEvents ps)).2 = []
    ∧ ((runTrace st (callEvents ps)).1.requestPromise.isSome
        = (st.requestPromise.isSome || !ps.isEmpty)) := by
  induction ps generalizing st with
  | nil => simp [callEvents, runTrace, writesOf]
  | cons cp ps ih =>
    cases hq : st.requestPromise with
    | none =>
      have h := ih { st with requestParams := objAssign st.requestParams cp.2,
                             requestPromise := some st.nextId,
                             attached := st.attached ++ [(cp.1, st.nextId)],
                             nextId := st.nextId + 1 }
      simp only [callEvents, List.map_cons, runTrace, coalescerStep, hq] at h ⊢
      simp only [writesOf_append, h.1, h.2.1, h.2.2.1, h.2.2.2.1, h.2.2.2.2]
      simp [writesOf]
    | some id =>
      have h := ih { st with requestParams := objAssign st.requestParams cp.2,
                             attached := st.attached ++ [(cp.1, id)] }
      simp only [callEvents, List.map_cons, runTrace, coalescerStep, hq] at h ⊢
      simp only [writesOf_append, h.1, h.2.1, h.2.2.1, h.2.2.2.1, h.2.2.2.2]
      simp [writesOf]

/-- Shared dispatch lemma: any nonempty burst of `requestChange` calls starting
    with no pending batch and no open promise, followed by the timer firing,
    issues exactly one write, whose options are built from the fold of all
    merged parameter maps. -/
theorem writes_after_calls_timer (ps : List (Nat × Batch)) (st : CoalescerState)
    (h0 : st.requestParams = []) (h1 : st.requestPromise = none) (hne : ps ≠ []) :
    writesOf (runTrace st (callEvents ps ++ [CoEvent.timerFire])).2
      = [buildUpdateOptions st.record
          (ps.foldl (fun acc cp => objAssign acc cp.2) [])] := by
  obtain ⟨hp, hrec, _, hw, hprom⟩ := runTrace_calls ps st
  rw [runTrace_append, writesOf_append, hw]
  rw [h1] at hprom
  have hne' : ps.isEmpty = false := by
    cases ps with
    | nil => exact absurd rfl hne
    | cons a l => rfl
  rw [hne'] at hprom
  simp only [Option.isSome_none, Bool.false_or, Bool.not_false] at hprom
  obtain ⟨id, hid⟩ := Option.isSome_iff_exists.mp hprom
  rw [h0] at hp
  simp [runTrace, coalescerStep, hid, writesOf, hp, hrec]

/-- Concrete settings used as fixtures. -/
def sampleSettings : AirconSettings :=
  { temp := "25", mode := "cool", vol := "1", dir := "auto", button := "" }

/-- Concrete appliance record used as fixture (same shape as an API record). -/
def sampleRecord : ApplianceRecord :=
  { id := "appl-1", device := "dev-1", aircon := none, settings := sampleSettings }

/-- A fresh accessory state: no pending batch, no open promise, nothing in
    flight. -/
def sampleState : CoalescerState :=
  { record := sampleRecord, requestParams := [], requestPromise := none,
    attached := [], inFlight := [], nextId := 0 }

/-- C1: every sequence of `requestChange` calls merged into one open pending
    batch during a single debounce window produces exactly one remote write
    when the window closes, and the form payload of that write contains the
    union of all merged key sets; in particular two calls with disjoint keys
    produce one write carrying both key sets. -/
theorem c1_one_write_per_window (ps : List (Nat × Batch)) (st : CoalescerState)
    (h0 : st.requestParams = []) (h1 : st.requestPromise = none) (hne : ps ≠ []) :
    writesOf (runTrace st (callEvents ps ++ [CoEvent.timerFire])).2
        = [buildUpdateOptions st.record
            (ps.foldl (fun acc cp => objAssign acc cp.2) [])]
    ∧ ∀ k, k ∈ batchKeys (buildUpdateOptions st.record
            (ps.foldl (fun acc cp => objAssign acc cp.2) [])).form
          ↔ ∃ p ∈ ps, k ∈ batchKeys p.2 := by
  refine ⟨writes_after_calls_timer ps st h0 h1 hne, fun k => ?_⟩
  show k ∈ batchKeys (ps.foldl (fun acc cp => objAssign acc cp.2) []) ↔ _
  rw [mem_keys_foldl]
  simp [batchKeys]

/-- Witness for C1: two calls with disjoint keys within one window produce one
    write whose form is their union. -/
theorem c1_one_write_per_window_witness :
    writesOf (runTrace sampleState
        (callEvents [(0, [("temperature", "25")]), (1, [("operation_mode", "cool")])]
          ++ [CoEvent.timerFire])).2
      = [buildUpdateOptions sampleState.record
          ([(0, [("temperature", "25")]), (1, [("operation_mode", "cool")])].foldl
            (fun acc cp => objAssign acc cp.2) [])] :=
  (c1_one_write_per_window
    [(0, [("temperature", "25")]), (1, [("operation_mode", "cool")])]
    sampleState rfl rfl (by simp)).1

/-- C10: merging into an open pending batch is right-biased (last-writer-wins):
    a key shared by two calls gets the later call's value, keys only in the
    earlier call are preserved, and the accumulated batch is the left-to-right
    fold of `Object.assign` over the calls in arrival order. -/
theorem c10_merge_last_writer_wins (st : CoalescerState)
    (h0 : st.requestParams = []) (a b : Nat) (p1 p2 : Batch) :
    (∀ k v, p2.lookup k = some v →
        ((runTrace st (callEvents [(a, p1), (b, p2)])).1.requestParams).lookup k
          = some v)
    ∧ (∀ k v, p2.lookup k = none → p1.lookup k = some v →
        ((runTrace st (callEvents [(a, p1), (b, p2)])).1.requestParams).lookup k
          = some v)
    ∧ ∀ ps : List (Nat × Batch),
        (runTrace st (callEvents ps)).1.requestParams
          = ps.foldl (fun acc cp => objAssign acc cp.2) [] := by
  have hfold : ∀ ps : List (Nat × Batch),
      (runTrace st (callEvents ps)).1.requestParams
        = ps.foldl (fun acc cp => objAssign acc cp.2) [] := by
    intro ps
    rw [(runTrace_calls ps st).1, h0]
  refine ⟨?_, ?_, hfold⟩
  · intro k v hv
    rw [hfold [(a, p1), (b, p2)]]
    simp only [List.foldl_cons, List.foldl_nil]
    rw [lookup_objAssign, hv]
    rfl
  · intro k v hv2 hv1
    rw [hfold [(a, p1), (b, p2)]]
    simp only [List.foldl_cons, List.foldl_nil]
    rw [lookup_objAssign, hv2, objAssign_nil]
    simp [optOr, hv1]

/-- Witness for C10: the shared key "b" takes the later call's value "3" and
    the earlier-only key "a" keeps "1". -/
theorem c10_merge_last_writer_wins_witness :
    ((runTrace sampleState
        (callEvents [(7, [("a", "1"), ("b", "2")]), (8, [("b", "3")])])).1.requestParams).lookup "b"
      = some "3"
    ∧ ((runTrace sampleState
        (callEvents [(7, [("a", "1"), ("b", "2")]), (8, [("b", "3")])])).1.requestParams).lookup "a"
      = some "1" :=
  ⟨(c10_merge_last_writer_wins sampleState rfl 7 8 [("a", "1"), ("b", "2")]
      [("b", "3")]).1 "b" "3" rfl,
   (c10_merge_last_writer_wins sampleState rfl 7 8 [("a", "1"), ("b", "2")]
      [("b", "3")]).2.1 "a" "1" rfl rfl⟩

/-- C3 (amended): a `requestChange` call never itself starts a network write
    and leaves every in-flight write untouched; when no promise is open (as
    after a dispatch, while the write is still in flight) it opens a fresh
    batch, distinct from every dispatched batch, to which it is deferred.
    (The code does not, however, bound in-flight writes to one: see the
    counterexample.) -/
theorem c3_requestChange_deferred (st : CoalescerState) (c : Nat) (p : Batch)
    (hfresh : ∀ w ∈ st.inFlight, w.1 < st.nextId) :
    writesOf (coalescerStep st (CoEvent.requestChange c p)).2 = []
    ∧ (coalescerStep st (CoEvent.requestChange c p)).1.inFlight = st.inFlight
    ∧ (st.requestPromise = none →
        (coalescerStep st (CoEvent.requestChange c p)).1.requestPromise
          = some st.nextId
        ∧ (coalescerStep st (CoEvent.requestChange c p)).1.attached
          = st.attached ++ [(c, st.nextId)]
        ∧ ∀ w ∈ st.inFlight, w.1 ≠ st.nextId) := by
  cases hq : st.requestPromise with
  | none =>
    refine ⟨by simp [coalescerStep, hq, writesOf], by simp [coalescerStep, hq], ?_⟩
    intro _
    refine ⟨by simp [coalescerStep, hq], by simp [coalescerStep, hq], ?_⟩
    intro w hw
    exact Nat.ne_of_lt (hfresh w hw)
  | some id =>
    refine ⟨by simp [coalescerStep, hq, writesOf], by simp [coalescerStep, hq], ?_⟩
    intro hcontra
    exact absurd hcontra (by simp)

/-- Witness for C3 (amended): a call arriving while one write is in flight and
    no promise is open is deferred to the fresh batch 1 and issues no write. -/
theorem c3_requestChange_deferred_witness :
    writesOf (coalescerStep
        { record := sampleRecord, requestParams := [], requestPromise := none,
          attached := [], inFlight := [(0, buildUpdateOptions sampleRecord [("temperature", "25")])],
          nextId := 1 }
        (CoEvent.requestChange 5 [("operation_mode", "warm")])).2 = [] :=
  (c3_requestChange_deferred
    { record := sampleRecord, requestParams := [], requestPromise := none,
      attached := [], inFlight := [(0, buildUpdateOptions sampleRecord [("temperature", "25")])],
      nextId := 1 }
    5 [("operation_mode", "warm")] (by decide)).1

/-- Counterexample for C3 as stated: after requestChange, timerFire,
    requestChange, timerFire — the second timer firing 100ms after the second
    call, while the first write's response has not arrived — TWO writes are in
    flight at once, refuting the at-most-one-in-flight-write invariant. -/
theorem c3_two_writes_in_flight :
    ¬ ((runTrace sampleState
        [CoEvent.requestChange 0 [("temperature", "25")],
         CoEvent.timerFire,
         CoEvent.requestChange 1 [("operation_mode", "warm")],
         CoEvent.timerFire]).1.inFlight.length ≤ 1) := by
  decide

/-- C4: all callers merged into one dispatched batch share its outcome. On
    failure (transport error, null/unparseable body, or a body with an error
    code) the cached record is entirely unchanged and every batched caller is
    rejected with the same reason; on success the settings portion of the
    cached record is replaced by the response payload and every batched caller
    is resolved with a Change Notifier trigger. A body carrying an error code
    is rejected exactly like a transport failure. -/
theorem c4_batch_shared_outcome (st : CoalescerState) (id : Nat) (err : Bool)
    (body : Option (Option JsonVal)) (w : RequestOptions)
    (hin : st.inFlight.lookup id = some w) :
    (∀ r, processUpdateResponse err body = Except.error r →
        (coalescerStep st (CoEvent.response id err body)).1.record = st.record
        ∧ (coalescerStep st (CoEvent.response id err body)).2
            = ((st.attached.filter (fun a => a.2 == id)).map Prod.fst).map
                (fun c => CoObs.rejected c r))
    ∧ (∀ j, processUpdateResponse err body = Except.ok j →
        (coalescerStep st (CoEvent.response id err body)).1.record
            = { st.record with settings := j.settings }
        ∧ (coalescerStep st (CoEvent.response id err body)).2
            = ((st.attached.filter (fun a => a.2 == id)).map Prod.fst).flatMap
                (fun c => [CoObs.notify, CoObs.resolved c]))
    ∧ (∀ j, err = false → body = some (some j) → j.hasCode = true →
        processUpdateResponse err body = Except.error "server returned error")
    ∧ (err = true →
        processUpdateResponse err body = Except.error "failed to update") := by
  refine ⟨?_, ?_, ?_, ?_⟩
  · intro r hr
    simp [coalescerStep, hin, hr]
  · intro j hj
    simp [coalescerStep, hin, hj]
  · intro j herr hbody hcode
    simp [processUpdateResponse, herr, hbody, hcode]
  · intro herr
    simp [processUpdateResponse, herr]

/-- Witness for C4: a transport failure for batch 3, with callers 5 and 6
    attached, leaves the record unchanged and rejects both with the same
    reason. -/
theorem c4_batch_shared_outcome_witness :
    (coalescerStep
        { record := sampleRecord, requestParams := [], requestPromise := none,
          attached := [(5, 3), (6, 3)],
          inFlight := [(3, buildUpdateOptions sampleRecord [("temperature", "25")])],
          nextId := 4 }
        (CoEvent.response 3 true none)).1.record = sampleRecord
    ∧ (coalescerStep
        { record := sampleRecord, requestParams := [], requestPromise := none,
          attached := [(5, 3), (6, 3)],
          inFlight := [(3, buildUpdateOptions sampleRecord [("temperature", "25")])],
          nextId := 4 }
        (CoEvent.response 3 true none)).2
      = [CoObs.rejected 5 "failed to update", CoObs.rejected 6 "failed to update"] := by
  have h := (c4_batch_shared_outcome
    { record := sampleRecord, requestParams := [], requestPromise := none,
      attached := [(5, 3), (6, 3)],
      inFlight := [(3, buildUpdateOptions sampleRecord [("temperature", "25")])],
      nextId := 4 }
    3 true none (buildUpdateOptions sampleRecord [("temperature", "25")])
    rfl).1 "failed to update" rfl
  exact ⟨h.1, by rw [h.2]; rfl⟩

/-- C5 (code bug): at dispatch the `button` default is merged into the request
    OPTIONS object, not into the form payload: with cached button state `""`
    and accumulated batch `{temperature: 25}`, the single write's form is
    exactly `{temperature: 25}` with no `button` entry, while the current
    button state sits as a stray top-level option key — so an unspecified
    button field is NOT carried by the outbound form. -/
theorem c5_button_default_not_in_form :
    (buildUpdateOptions sampleRecord [("temperature", "25")]).form
        = [("temperature", "25")]
    ∧ ((buildUpdateOptions sampleRecord [("temperature", "25")]).form).lookup "button"
        = none
    ∧ (buildUpdateOptions sampleRecord [("temperature", "25")]).button = some ""
    ∧ writesOf (runTrace sampleState
        [CoEvent.requestChange 0 [("temperature", "25")], CoEvent.timerFire]).2
      = [buildUpdateOptions sampleRecord [("temperature", "25")]] := by
  refine ⟨rfl, rfl, rfl, ?_⟩
  rfl

/-- Modelled from the spec: the key-rename table of the skip-unchanged policy
    (spec 4.3.1): a request parameter name maps to the settings field it is
    compared against (temperature to temp, operation_mode to mode, air_volume
    to vol, air_direction to dir, button to button). The skip-unchanged policy
    itself is described by the spec (4.3 rule 1, configuration flag default
    enabled) but is absent from the sources under src/. -/
def settingsField : String → Option (AirconSettings → String)
  | "temperature" => some (fun s => s.temp)
  | "operation_mode" => some (fun s => s.mode)
  | "air_volume" => some (fun s => s.vol)
  | "air_direction" => some (fun s => s.dir)
  | "button" => some (fun s => s.button)
  | _ => none

/-- Modelled from the spec: a merged batch produces no observable difference
    from the last known settings iff every key's requested value equals the
    corresponding settings field; a key with no rename entry is conservatively
    treated as differing. -/
def batchUnchanged (s : AirconSettings) (b : Batch) : Bool :=
  b.all (fun kv => match settingsField kv.1 with
    | some f => f s == kv.2
    | none => false)

/-- Modelled from the spec: `requestChange` under the skip-unchanged policy
    (spec 4.3 rule 1): merge the parameters into the open batch; if the policy
    is enabled and the fully merged batch is unchanged with respect to the
    cached settings, complete immediately as a no-op success without opening
    or extending the debounce timer; otherwise behave exactly as the source
    `_updateTargetAppliance`. -/
def coalescerStepSkip (skipEnabled : Bool) (st : CoalescerState) (e : CoEvent) :
    CoalescerState × List CoObs :=
  match e with
  | CoEvent.requestChange c p =>
      if skipEnabled && batchUnchanged st.record.settings (objAssign st.requestParams p) then
        ({ st with requestParams := objAssign st.requestParams p }, [CoObs.resolved c])
      else coalescerStep st (CoEvent.requestChange c p)
  | e => coalescerStep st e

/-- C2: with the skip-unchanged policy enabled and no previously pending batch,
    a `requestChange` whose every key's requested value equals the
    corresponding cached settings field completes immediately as a successful
    no-op: the caller is resolved, no write is issued, and the debounce
    promise and the in-flight writes are untouched. -/
theorem c2_skip_unchanged_noop (st : CoalescerState) (c : Nat) (p : Batch)
    (h0 : st.requestParams = [])
    (hp : ∀ kv ∈ p, ∃ f, settingsField kv.1 = some f
        ∧ f st.record.settings = kv.2) :
    (coalescerStepSkip true st (CoEvent.requestChange c p)).2 = [CoObs.resolved c]
    ∧ writesOf (coalescerStepSkip true st (CoEvent.requestChange c p)).2 = []
    ∧ (coalescerStepSkip true st (CoEvent.requestChange c p)).1.requestPromise
        = st.requestPromise
    ∧ (coalescerStepSkip true st (CoEvent.requestChange c p)).1.inFlight
        = st.inFlight := by
  have hm : objAssign st.requestParams p = p := by
    rw [h0, objAssign_nil]
  have hu : batchUnchanged st.record.settings (objAssign st.requestParams p) = true := by
    rw [hm, batchUnchanged, List.all_eq_true]
    intro kv hkv
    obtain ⟨f, hf, hv⟩ := hp kv hkv
    rw [hf]
    show (f st.record.settings == kv.2) = true
    rw [hv]
    simp
  refine ⟨?_, ?_, ?_, ?_⟩ <;> simp [coalescerStepSkip, hu, writesOf]

/-- Witness for C2: requesting temperature 25 when the cached settings already
    hold temp 25 is a skipped no-op success. -/
theorem c2_skip_unchanged_noop_witness :
    (coalescerStepSkip true sampleState
        (CoEvent.requestChange 2 [("temperature", "25")])).2 = [CoObs.resolved 2]
    ∧ (coalescerStepSkip true sampleState
        (CoEvent.requestChange 2 [("temperature", "25")])).1.requestPromise = none :=
  ⟨(c2_skip_unchanged_noop sampleState 2 [("temperature", "25")] rfl
      (by
        intro kv hkv
        simp only [List.mem_singleton] at hkv
        subst hkv
        exact ⟨fun s => s.temp, rfl, rfl⟩)).1,
   (c2_skip_unchanged_noop sampleState 2 [("temperature", "25")] rfl
      (by
        intro kv hkv
        simp only [List.mem_singleton] at hkv
        subst hkv
        exact ⟨fun s => s.temp, rfl, rfl⟩)).2.2.1⟩

/-- JS truthiness of `this.appliance_id` (`config.appliance_id || null` makes
    the empty string null; null and "" are falsy). -/
def truthyId : Option String → Bool
  | none => false
  | some s => !(s == "")

/-- The appliance selection of `_refreshTargetAppliance` (index.js lines
    114-126): with a truthy configured id, `find` the entry with that id;
    otherwise take the first entry of the list whose `aircon` is non-null
    (`filter(...)[0]`). -/
def resolveAppliance (aid : Option String) (l : List ApplianceRecord) :
    Option ApplianceRecord :=
  if truthyId aid then l.find? (fun a => a.id == aid.getD "")
  else (l.filter (fun a => a.aircon.isSome)).head?

/-- A parsed body of `GET /appliances`: an object carrying an error `code`
    field, or the appliance list. -/
inductive AppliancesBody
  | errObj
  | list (l : List ApplianceRecord)
deriving DecidableEq

/-- The refresh-path state: the configured/pinned appliance id, the cached
    record, and the cached temperature reading. -/
structure RefreshState where
  appliance_id : Option String
  record : Option ApplianceRecord
  temperature : Int
deriving DecidableEq

/-- `_refreshTargetAppliance` response handling (index.js lines 99-137):
    transport errors, null bodies, unparseable bodies and error-code bodies
    only log and leave the state untouched; otherwise the resolver runs, and
    on success the record is replaced and the discovered id persisted, while
    on failure ("Target aircon could not be found") everything is retained. -/
def refreshApplianceStep (st : RefreshState) (err : Bool)
    (body : Option (Option AppliancesBody)) : RefreshState :=
  if err then st
  else match body with
  | none => st
  | some none => st
  | some (some AppliancesBody.errObj) => st
  | some (some (AppliancesBody.list l)) =>
      match resolveAppliance st.appliance_id l with
      | some a => { st with record := some a, appliance_id := some a.id }
      | none => st

/-- C6: with no configured identifier the resolver picks the first entry in
    list order with non-null aircon capability, replaces the cached record and
    pins the configured identifier to that entry's id; afterwards, resolving
    any list in which that entry is the one found by its id selects the same
    entry again, and a truthy identifier never reverts to unset. -/
theorem c6_resolver_pins_first_aircon (st : RefreshState)
    (l l2 : List ApplianceRecord) (a : ApplianceRecord)
    (h0 : truthyId st.appliance_id = false)
    (hfirst : (l.filter (fun x => x.aircon.isSome)).head? = some a)
    (hid : (a.id == "") = false)
    (hfind : l2.find? (fun x => x.id == a.id) = some a) :
    (refreshApplianceStep st false (some (some (AppliancesBody.list l)))).record
        = some a
    ∧ (refreshApplianceStep st false (some (some (AppliancesBody.list l)))).appliance_id
        = some a.id
    ∧ (refreshApplianceStep
        (refreshApplianceStep st false (some (some (AppliancesBody.list l))))
        false (some (some (AppliancesBody.list l2)))).record = some a
    ∧ (refreshApplianceStep
        (refreshApplianceStep st false (some (some (AppliancesBody.list l))))
        false (some (some (AppliancesBody.list l2)))).appliance_id = some a.id
    ∧ ∀ (st2 : RefreshState) (e : Bool) (b : Option (Option AppliancesBody)),
        truthyId st2.appliance_id = true →
        truthyId (refreshApplianceStep st2 e b).appliance_id = true := by
  have hstep1 : refreshApplianceStep st false (some (some (AppliancesBody.list l)))
      = { st with record := some a, appliance_id := some a.id } := by
    simp [refreshApplianceStep, resolveAppliance, h0, hfirst]
  have htr : truthyId (some a.id) = true := by
    simp [truthyId, hid]
  have hstep2 : refreshApplianceStep
      { st with record := some a, appliance_id := some a.id }
      false (some (some (AppliancesBody.list l2)))
      = { st with record := some a, appliance_id := some a.id } := by
    simp [refreshApplianceStep, resolveAppliance, htr, Option.getD, hfind]
  refine ⟨by rw [hstep1], by rw [hstep1], by rw [hstep1, hstep2], by rw [hstep1, hstep2], ?_⟩
  intro st2 e b htr2
  cases e with
  | true => simpa [refreshApplianceStep] using htr2
  | false =>
    match b with
    | none => simpa [refreshApplianceStep] using htr2
    | some none => simpa [refreshApplianceStep] using htr2
    | some (some AppliancesBody.errObj) => simpa [refreshApplianceStep] using htr2
    | some (some (AppliancesBody.list l3)) =>
      obtain ⟨s, hs⟩ : ∃ s, st2.appliance_id = some s := by
        cases hq : st2.appliance_id with
        | none => rw [hq] at htr2; simp [truthyId] at htr2
        | some s => exact ⟨s, rfl⟩
      cases hres : resolveAppliance st2.appliance_id (l3 : List ApplianceRecord) with
      | none => simpa [refreshApplianceStep, hres] using htr2
      | some x =>
        have hx : (x.id == s) = true := by
          rw [resolveAppliance, if_pos (by rw [hs] at htr2 ⊢; exact htr2), hs] at hres
          simpa using List.find?_some hres
        have hxne : truthyId (some x.id) = true := by
          have hxs : x.id = s := eq_of_beq hx
          rw [hs] at htr2
          simpa [truthyId, hxs] using htr2
        simp [refreshApplianceStep, hres, hxne]

/-- Witness for C6: from an unset identifier over the list [A without aircon,
    B with aircon], B is selected and pinned, and stays selected. -/
theorem c6_resolver_pins_first_aircon_witness :
    (refreshApplianceStep { appliance_id := none, record := none, temperature := 0 }
        false (some (some (AppliancesBody.list
          [{ id := "A", device := "dA", aircon := none, settings := sampleSettings },
           { id := "B", device := "dB",
             aircon := some { tempUnit := "c", range := { modes := [] } },
             settings := sampleSettings }])))).appliance_id = some "B" :=
  (c6_resolver_pins_first_aircon
    { appliance_id := none, record := none, temperature := 0 }
    [{ id := "A", device := "dA", aircon := none, settings := sampleSettings },
     { id := "B", device := "dB",
       aircon := some { tempUnit := "c", range := { modes := [] } },
       settings := sampleSettings }]
    [{ id := "B", device := "dB",
       aircon := some { tempUnit := "c", range := { modes := [] } },
       settings := sampleSettings }]
    { id := "B", device := "dB",
      aircon := some { tempUnit := "c", range := { modes := [] } },
      settings := sampleSettings }
    rfl rfl rfl rfl).2.1

/-- A device summary from `GET /devices`: its id and the newest temperature
    event value (`newest_events.te.val`). -/
structure Device where
  id : String
  te_val : Int
deriving DecidableEq

/-- A parsed body of `GET /devices`: an object carrying an error `code` field,
    or the device list. -/
inductive DevicesBody
  | errObj
  | list (l : List Device)
deriving DecidableEq

/-- `_refreshTemperature` response handling (index.js lines 140-174). A null
    record returns early; transport errors, null bodies, unparseable bodies
    and error-code bodies log and return, leaving the reading in place; with a
    device list, `json.find(dev => dev.id === this.record.device.id)` is
    dereferenced unconditionally: when no device matches, the access
    `device.newest_events.te.val` throws a TypeError, modelled as `.error`. -/
def refreshTemperatureStep (st : RefreshState) (err : Bool)
    (body : Option (Option DevicesBody)) : Except String RefreshState :=
  match st.record with
  | none => Except.ok st
  | some r =>
      if err then Except.ok st
      else match body with
      | none => Except.ok st
      | some none => Except.ok st
      | some (some DevicesBody.errObj) => Except.ok st
      | some (some (DevicesBody.list l)) =>
          match l.find? (fun d => d.id == r.device) with
          | none => Except.error "TypeError: cannot read newest_events of undefined"
          | some d => Except.ok { st with temperature := d.te_val }

/-- A refresh-path state fixture: pinned id "appl-1", cached record present,
    cached reading 20. -/
def sampleRefreshState : RefreshState :=
  { appliance_id := some "appl-1", record := some sampleRecord, temperature := 20 }

/-- C7 (code bug): when the appliance's associated device (id "dev-1") is not
    present in the fetched device list, the refresh does not retain the
    previous reading and log — it throws an uncaught TypeError, so the failure
    escapes the refresh cycle; failures that ARE absorbed (transport error and
    resolution miss) leave the caches untouched as the claim states. -/
theorem c7_device_missing_throws :
    refreshTemperatureStep sampleRefreshState false
        (some (some (DevicesBody.list [{ id := "other-device", te_val := 21 }])))
      = Except.error "TypeError: cannot read newest_events of undefined"
    ∧ refreshTemperatureStep sampleRefreshState true none
      = Except.ok sampleRefreshState
    ∧ refreshApplianceStep sampleRefreshState false
        (some (some (AppliancesBody.list
          [{ id := "unrelated", device := "dX", aircon := none,
             settings := sampleSettings }])))
      = sampleRefreshState := by
  refine ⟨rfl, rfl, rfl⟩

/-- `_translateHeatingCoolingState` (index.js lines 223-234): power-off button
    maps to 0 regardless of mode; otherwise warm 1, cool 2, auto 3; any other
    mode yields null. -/
def translateHeatingCoolingState (s : AirconSettings) : Option Nat :=
  if s.button = "power-off" then some 0
  else if s.mode = "warm" then some 1
  else if s.mode = "cool" then some 2
  else if s.mode = "auto" then some 3
  else none

/-- C9: the heating/cooling state projection is total: button "power-off"
    yields off (0) regardless of mode; otherwise mode "warm" yields heat (1),
    "cool" yields cool (2), "auto" yields auto (3), and any other mode yields
    the failure value (none). -/
theorem c9_heating_cooling_projection (s : AirconSettings) :
    (s.button = "power-off" → translateHeatingCoolingState s = some 0)
    ∧ (s.button ≠ "power-off" →
        (s.mode = "warm" → translateHeatingCoolingState s = some 1)
        ∧ (s.mode = "cool" → translateHeatingCoolingState s = some 2)
        ∧ (s.mode = "auto" → translateHeatingCoolingState s = some 3)
        ∧ (s.mode ≠ "warm" → s.mode ≠ "cool" → s.mode ≠ "auto" →
            translateHeatingCoolingState s = none)) := by
  refine ⟨fun h => by simp [translateHeatingCoolingState, h], fun h => ⟨?_, ?_, ?_, ?_⟩⟩
  · intro hm
    simp [translateHeatingCoolingState, h, hm]
  · intro hm
    simp [translateHeatingCoolingState, h, hm]
  · intro hm
    simp [translateHeatingCoolingState, h, hm]
  · intro h1 h2 h3
    simp [translateHeatingCoolingState, h, h1, h2, h3]

/-- Witness for C9: the five example settings of the spec evaluate as claimed,
    including the "dry" projection failure. -/
theorem c9_heating_cooling_projection_witness :
    translateHeatingCoolingState { sampleSettings with button := "power-off" } = some 0
    ∧ translateHeatingCoolingState { sampleSettings with mode := "warm" } = some 1
    ∧ translateHeatingCoolingState { sampleSettings with mode := "cool" } = some 2
    ∧ translateHeatingCoolingState { sampleSettings with mode := "auto" } = some 3
    ∧ translateHeatingCoolingState { sampleSettings with mode := "dry" } = none :=
  ⟨(c9_heating_cooling_projection { sampleSettings with button := "power-off" }).1 rfl,
   ((c9_heating_cooling_projection { sampleSettings with mode := "warm" }).2
      (by decide)).1 rfl,
   ((c9_heating_cooling_projection { sampleSettings with mode := "cool" }).2
      (by decide)).2.1 rfl,
   ((c9_heating_cooling_projection { sampleSettings with mode := "auto" }).2
      (by decide)).2.2.1 rfl,
   ((c9_heating_cooling_projection { sampleSettings with mode := "dry" }).2
      (by decide)).2.2.2 (by decide) (by decide) (by decide)⟩

/-- JS number results reachable in the temperature-bounds pipeline: finite
    values, the plus/minus Infinity produced by `Math.min(...)`/`Math.max(...)`
    over an empty spread, and NaN (for the `isNaN` fallback check). -/
inductive JSNum
  | num (x : Int)
  | posInf
  | negInf
  | nan
deriving DecidableEq

/-- JS `isNaN` on the reachable values. -/
def jsIsNaN : JSNum → Bool
  | JSNum.nan => true
  | _ => false

/-- JS `Math.min(...l)`: Infinity on the empty spread, else the minimum. -/
def jsMinList : List Int → JSNum
  | [] => JSNum.posInf
  | x :: xs => JSNum.num (xs.foldl min x)

/-- JS `Math.max(...l)`: -Infinity on the empty spread, else the maximum. -/
def jsMaxList : List Int → JSNum
  | [] => JSNum.negInf
  | x :: xs => JSNum.num (xs.foldl max x)

/-- The regex filter of `_getAllTemperatures`: the string matches
    `^\d+(\.\d+)?$`. -/
def matchesTempRegex (s : String) : Bool :=
  match s.data.splitOn '.' with
  | [a] => !a.isEmpty && a.all Char.isDigit
  | [a, b] => !a.isEmpty && a.all Char.isDigit && !b.isEmpty && b.all Char.isDigit
  | _ => false

/-- Decimal value of a digit run. -/
def digitsToNat (l : List Char) : Nat :=
  l.foldl (fun acc c => acc * 10 + (c.toNat - 48)) 0

/-- JS `parseInt` on a regex-matching temperature string: the value of the
    leading digit run (truncating any fractional part). -/
def parseIntJS (s : String) : Nat :=
  digitsToNat (s.data.takeWhile Char.isDigit)

/-- `_getAllTemperatures` (index.js lines 372-387): for the modes cool, warm
    and auto (in capability-map order), keep the regex-matching temperature
    strings and parse them; duplicates are kept. -/
def getAllTemperatures (modes : List (String × ModeCaps)) : List Nat :=
  (modes.filter (fun m => m.1 == "cool" || m.1 == "warm" || m.1 == "auto")).foldl
    (fun acc m => acc ++ (m.2.temp.filter matchesTempRegex).map parseIntJS) []

/-- UTF-16 code-unit comparison of the decimal representations — the default
    JS `Array.prototype.sort` comparator (lexicographic on strings). -/
def charListLt : List Char → List Char → Bool
  | [], [] => false
  | [], _ :: _ => true
  | _ :: _, [] => false
  | a :: as, b :: bs =>
      if a.toNat < b.toNat then true
      else if b.toNat < a.toNat then false
      else charListLt as bs

/-- The string sort key of a number under the default JS comparator. -/
def jsNumKey (n : Nat) : List Char := (Nat.repr n).data

/-- Insert before the first element whose key is not below the new one. -/
def jsSortInsert (x : Nat) : List Nat → List Nat
  | [] => [x]
  | y :: ys =>
      if charListLt (jsNumKey y) (jsNumKey x) then y :: jsSortInsert x ys
      else x :: y :: ys

/-- `Array.prototype.sort()` with the default (string) comparator. -/
def jsSort : List Nat → List Nat
  | [] => []
  | x :: xs => jsSortInsert x (jsSort xs)

/-- The `.map((_, i, temp) => i === 0 ? 0 : temp[i] - temp[i-1])` step over the
    sorted array. -/
def consecutiveDiffs (l : List Nat) : List Int :=
  (List.range l.length).map (fun i =>
    if i = 0 then (0 : Int)
    else Int.ofNat (l.getD i 0) - Int.ofNat (l.getD (i - 1) 0))

/-- The `isNaN(v) ? 1.0 : v` fallback of `getTargetTemperatureStep`. -/
def jsStepFallback (v : JSNum) : JSNum :=
  if jsIsNaN v then JSNum.num 1 else v

/-- `getTargetTemperatureStep` (index.js lines 355-360): Math.min over the
    positive consecutive differences of the (string-) sorted temperatures,
    with the 1.0 fallback only on NaN. -/
def getTargetTemperatureStep (modes : List (String × ModeCaps)) : JSNum :=
  jsStepFallback (jsMinList ((consecutiveDiffs (jsSort (getAllTemperatures modes))).filter
      (fun x => decide (0 < x))))

/-- `getMinTargetTemperature` (index.js lines 362-365). -/
def getMinTargetTemperature (modes : List (String × ModeCaps)) : JSNum :=
  if jsIsNaN (jsMinList ((getAllTemperatures modes).map Int.ofNat)) then JSNum.num 10
  else jsMinList ((getAllTemperatures modes).map Int.ofNat)

/-- `getMaxTargetTemperature` (index.js lines 367-370). -/
def getMaxTargetTemperature (modes : List (String × ModeCaps)) : JSNum :=
  if jsIsNaN (jsMaxList ((getAllTemperatures modes).map Int.ofNat)) then JSNum.num 122
  else jsMaxList ((getAllTemperatures modes).map Int.ofNat)

/-- The capability set of the spec's example: cool temp 20/22/24, warm
    temp 24/26. -/
def exampleModes : List (String × ModeCaps) :=
  [("cool", { temp := ["20", "22", "24"] }), ("warm", { temp := ["24", "26"] })]

/-- C8 counterexample: on an empty capability set the projections return the
    JS Infinities produced by Math.min/Math.max over an empty spread — not the
    claimed fixed defaults min 10, max 122, step 1 (the isNaN fallback never
    fires, since the regex-filtered parse cannot produce NaN). -/
theorem c8_empty_set_returns_infinity :
    getTargetTemperatureStep [] = JSNum.posInf
    ∧ getTargetTemperatureStep [] ≠ JSNum.num 1
    ∧ getMinTargetTemperature [] = JSNum.posInf
    ∧ getMinTargetTemperature [] ≠ JSNum.num 10
    ∧ getMaxTargetTemperature [] = JSNum.negInf
    ∧ getMaxTargetTemperature [] ≠ JSNum.num 122 := by
  refine ⟨rfl, by decide, rfl, by decide, rfl, by decide⟩

/-- C8 (amended): the bounds projection parses the numeric temperature options
    of the cool/warm/auto capability entries; min and max are the numeric
    extremes and the step is the smallest positive gap between consecutive
    elements after JS default (string-lexicographic) sorting — on the example
    set cool [20,22,24], warm [24,26] this gives min 20, max 26, step 2; when
    the set is empty or contains no numeric entries the projections return
    +Infinity (min, step) and -Infinity (max), the 10/122/1 defaults being
    reachable only through NaN. -/
theorem c8_bounds_projection (modes : List (String × ModeCaps))
    (h : getAllTemperatures modes = []) :
    (getMinTargetTemperature exampleModes = JSNum.num 20
      ∧ getMaxTargetTemperature exampleModes = JSNum.num 26
      ∧ getTargetTemperatureStep exampleModes = JSNum.num 2)
    ∧ (getTargetTemperatureStep modes = JSNum.posInf
      ∧ getMinTargetTemperature modes = JSNum.posInf
      ∧ getMaxTargetTemperature modes = JSNum.negInf) := by
  refine ⟨⟨by decide, by decide, by decide⟩, ?_⟩
  rw [getTargetTemperatureStep, getMinTargetTemperature, getMaxTargetTemperature, h]
  refine ⟨rfl, rfl, rfl⟩

/-- Witness for C8 (amended): applied to a capability set with only a "dry"
    mode entry, whose temperature set is empty after filtering. -/
theorem c8_bounds_projection_witness :
    getTargetTemperatureStep [("dry", { temp := ["20"] })] = JSNum.posInf
    ∧ getMinTargetTemperature [("dry", { temp := ["20"] })] = JSNum.posInf
    ∧ getMaxTargetTemperature [("dry", { temp := ["20"] })] = JSNum.negInf :=
  (c8_bounds_projection [("dry", { temp := ["20"] })] rfl).2
